import Mathlib

/-!
Verification development for the radius_replit brand-visibility pipeline.

Shallow embedding of the server agents (`alertMonitor.ts`, `visibilityScorer.ts`,
`queryGenerator.ts`, `searchSimulator.ts`, `memoryStore.ts`).  JavaScript numbers
are modelled as exact rationals (every value that arises here is an integer or a
small ratio, so no floating-point rounding is relevant to the stated properties);
strings are Lean strings over characters; `Date` timestamps carry no information
used by any property and are omitted from the records.  External calls to the
text-completion oracle are modelled as explicit function parameters returning
`Option` (`none` models a thrown error).
-/

namespace Radius

/-- Brand position labels from `types.ts` (`'top' | 'middle' | 'bottom' | 'absent'`). -/
inductive BrandPosition where
  | top | middle | bottom | absent
deriving DecidableEq, Repr

/-- Sentiment labels from `types.ts`. -/
inductive Sentiment where
  | positive | neutral | negative
deriving DecidableEq, Repr

/-- `SimulationResult` from `types.ts` (the `timestamp : Date` field is omitted). -/
structure SimulationResult where
  query : String
  aiResponse : String
  brandFound : Bool
  brandPosition : BrandPosition
  competitorsFound : List String
  sentiment : Sentiment
deriving DecidableEq, Repr

/-- The `breakdown` sub-record of `VisibilityScore` from `types.ts`. -/
structure Breakdown where
  brandMentions : Nat
  topPositions : Nat
  middlePositions : Nat
  competitorPenalty : Nat
  sentimentPenalty : Nat
deriving DecidableEq, Repr

/-- `VisibilityScore` from `types.ts`.  `score` and `maxPossibleScore` are integers
in every run the scorer produces; `percentage` is kept as a rational because the
alert rules divide by it. -/
structure VisibilityScore where
  score : Int
  maxPossibleScore : Int
  percentage : Rat
  explanation : String
  breakdown : Breakdown
deriving DecidableEq, Repr

/-- Alert `type` field from `types.ts`. -/
inductive AlertType where
  | visibility_drop | competitor_overtake | brand_disappeared
deriving DecidableEq, Repr

/-- Alert `severity` field from `types.ts`. -/
inductive Severity where
  | low | medium | high
deriving DecidableEq, Repr

/-- The `previousState` / `currentState` snapshots carried by an `Alert`. -/
structure AlertState where
  brandPosition : String
  score : Rat
deriving DecidableEq, Repr

/-- `Alert` from `types.ts` (the `timestamp : Date` field is omitted). -/
structure Alert where
  type : AlertType
  severity : Severity
  message : String
  query : String
  previousState : Option AlertState
  currentState : AlertState
deriving DecidableEq, Repr

/-- `GEOAnalysisRequest` from `types.ts`. -/
structure GEOAnalysisRequest where
  brand : String
  industry : String
  competitors : List String
  market : Option String
  domain : Option String
deriving DecidableEq, Repr

/-- The fields of `GEOAnalysisResult` consumed by the agents under study
(`request`, `simulations`, `visibilityScore`); the report fields that no modelled
function reads (queries, alerts, recommendations, runId, timestamp) are omitted. -/
structure GEOAnalysisResult where
  request : GEOAnalysisRequest
  simulations : List SimulationResult
  visibilityScore : VisibilityScore
deriving DecidableEq, Repr

/-- The first (`current`) argument of `generateAlerts` in `alertMonitor.ts`. -/
structure CurrentRun where
  simulations : List SimulationResult
  visibilityScore : VisibilityScore
deriving DecidableEq, Repr

/-- Render a `BrandPosition` the way the TypeScript string union prints. -/
def posStr : BrandPosition → String
  | .top => "top"
  | .middle => "middle"
  | .bottom => "bottom"
  | .absent => "absent"

/-- `list.join(', ')` guarded by the `length > 0 ? ... : 'None'` pattern used in
the alert message templates. -/
def joinOrNone (l : List String) : String :=
  if l.length > 0 then String.intercalate ", " l else "None"

/-- `formatDropAlert` from `alertMonitor.ts` (numeric rendering is Lean's). -/
def formatDropAlert (prev curr drop : Rat) : String :=
  "⚠️ ALERT TYPE: Drop\n\nQuery: \"Overall visibility score\"\nPrevious State:\n- Visibility score: "
    ++ toString prev ++ "%\n\nCurrent State:\n- Visibility score: " ++ toString curr
    ++ "%\n\nImpact Summary: Your brand visibility dropped by " ++ toString drop
    ++ "% points. This significant decline suggests AI models are citing your brand less frequently, potentially due to competitor content improvements or changes in AI model training data."

/-- `checkVisibilityDrop` from `alertMonitor.ts`: trigger on an absolute or
relative percentage drop of at least 20. -/
def checkVisibilityDrop (current previous : VisibilityScore) : Option Alert :=
  let absoluteDrop : Rat := previous.percentage - current.percentage
  let relativeDrop : Rat :=
    if previous.percentage > 0 then absoluteDrop / previous.percentage * 100 else 0
  if absoluteDrop ≥ 20 ∨ relativeDrop ≥ 20 then
    some
      { type := .visibility_drop
        severity :=
          if absoluteDrop ≥ 30 then .high
          else if absoluteDrop ≥ 20 then .medium
          else .low
        message := formatDropAlert previous.percentage current.percentage absoluteDrop
        query := "Overall visibility score"
        previousState := some { brandPosition := "N/A", score := previous.percentage }
        currentState := { brandPosition := "N/A", score := current.percentage } }
  else
    none

/-- `formatDisappearanceAlert` from `alertMonitor.ts`. -/
def formatDisappearanceAlert (query prevPosition : String) (prevCompetitors : List String)
    (currPosition : String) (currCompetitors : List String) : String :=
  "⚠️ ALERT TYPE: Drop\n\nQuery: \"" ++ query ++ "\"\nPrevious State:\n- Brand position: "
    ++ prevPosition ++ "\n- Competitors present: " ++ joinOrNone prevCompetitors
    ++ "\n\nCurrent State:\n- Brand position: " ++ currPosition
    ++ "\n- Competitors present: " ++ joinOrNone currCompetitors
    ++ "\n\nImpact Summary: Your brand disappeared from AI answers for this query. Previously you held "
    ++ prevPosition
    ++ " position. This loss means potential customers asking this question will not see your brand recommended."

/-- `previous.find(p => p.query === currSim.query)`. -/
def findPrevSim (previous : List SimulationResult) (q : String) : Option SimulationResult :=
  previous.find? (fun p => p.query == q)

/-- One iteration of the `checkBrandDisappearance` loop body: conditionally push
the top-loss alert, then the found-to-absent alert (with its duplicate guard that
inspects the alerts accumulated so far). -/
def disappearanceStep (previous : List SimulationResult) (alerts : List Alert)
    (currSim : SimulationResult) : List Alert :=
  match findPrevSim previous currSim.query with
  | none => alerts
  | some prevSim =>
    let alerts :=
      if prevSim.brandFound ∧ prevSim.brandPosition = .top
          ∧ (¬ currSim.brandFound ∨ currSim.brandPosition = .absent) then
        alerts ++
          [{ type := .brand_disappeared
             severity := .high
             message := formatDisappearanceAlert currSim.query (posStr prevSim.brandPosition)
               prevSim.competitorsFound
               (if currSim.brandFound then posStr currSim.brandPosition else "absent")
               currSim.competitorsFound
             query := currSim.query
             previousState := some { brandPosition := posStr prevSim.brandPosition, score := 1 }
             currentState :=
               { brandPosition := if currSim.brandFound then posStr currSim.brandPosition else "absent"
                 score := 0 } }]
      else alerts
    if prevSim.brandFound ∧ ¬ currSim.brandFound
        ∧ ¬ (alerts.any fun a => a.query == currSim.query && a.type == .brand_disappeared) then
      alerts ++
        [{ type := .brand_disappeared
           severity := .medium
           message := formatDisappearanceAlert currSim.query (posStr prevSim.brandPosition)
             prevSim.competitorsFound "absent" currSim.competitorsFound
           query := currSim.query
           previousState := some { brandPosition := posStr prevSim.brandPosition, score := 1 }
           currentState := { brandPosition := "absent", score := 0 } }]
    else alerts

/-- `checkBrandDisappearance` from `alertMonitor.ts`, as a fold over the current
simulations carrying the accumulated alert list. -/
def checkBrandDisappearance (current previous : List SimulationResult) : List Alert :=
  current.foldl (disappearanceStep previous) []

/-- `formatCompetitorAlert` from `alertMonitor.ts`. -/
def formatCompetitorAlert (query prevPosition : String) (prevCompetitors : List String)
    (currPosition : String) (currCompetitors newCompetitors : List String) : String :=
  let threat :=
    if newCompetitors.length > 0 then newCompetitors.headD "A competitor"
    else currCompetitors.headD "A competitor"
  "⚠️ ALERT TYPE: Threat\n\nQuery: \"" ++ query ++ "\"\nPrevious State:\n- Brand position: "
    ++ prevPosition ++ "\n- Competitors present: " ++ joinOrNone prevCompetitors
    ++ "\n\nCurrent State:\n- Brand position: " ++ currPosition
    ++ "\n- Competitors present: " ++ joinOrNone currCompetitors
    ++ "\n\nImpact Summary: " ++ threat
    ++ " has replaced your brand in AI answers for this query. When users ask \"" ++ query
    ++ "\", they now see your competitor instead of you. This directly impacts lead generation and brand perception."

/-- One iteration of the `checkCompetitorReplacement` loop body. -/
def overtakeStep (previous : List SimulationResult) (alerts : List Alert)
    (currSim : SimulationResult) : List Alert :=
  match findPrevSim previous currSim.query with
  | none => alerts
  | some prevSim =>
    if prevSim.brandFound ∧ (prevSim.brandPosition = .top ∨ prevSim.brandPosition = .middle) then
      let brandWorsened :=
        ¬ currSim.brandFound
          ∨ (prevSim.brandPosition = .top ∧ ¬ currSim.brandPosition = .top)
      let competitorGained :=
        currSim.competitorsFound.length > prevSim.competitorsFound.length
          ∨ currSim.competitorsFound.any (fun c => ¬ prevSim.competitorsFound.contains c)
      if brandWorsened ∧ competitorGained then
        let newCompetitors :=
          currSim.competitorsFound.filter (fun c => ¬ prevSim.competitorsFound.contains c)
        alerts ++
          [{ type := .competitor_overtake
             severity := .high
             message := formatCompetitorAlert currSim.query (posStr prevSim.brandPosition)
               prevSim.competitorsFound
               (if currSim.brandFound then posStr currSim.brandPosition else "absent")
               currSim.competitorsFound newCompetitors
             query := currSim.query
             previousState := some { brandPosition := posStr prevSim.brandPosition, score := 1 }
             currentState :=
               { brandPosition :=
                   if currSim.brandFound then posStr currSim.brandPosition else "absent"
                 score := 0 } }]
      else alerts
    else alerts

/-- `checkCompetitorReplacement` from `alertMonitor.ts` (its `brand` parameter is
unread in the source as well). -/
def checkCompetitorReplacement (current previous : List SimulationResult)
    (_brand : String) : List Alert :=
  current.foldl (overtakeStep previous) []

/-- The gain alert pushed when the brand appears for a query with no previous
simulation (`checkVisibilityGains`, first branch). -/
def newQueryGainAlert (currSim : SimulationResult) : Alert :=
  { type := .visibility_drop
    severity := .low
    message := "✅ ALERT TYPE: Gain\n\nQuery: \"" ++ currSim.query
      ++ "\"\nPrevious State:\n- Brand position: Not tracked\n\nCurrent State:\n- Brand position: "
      ++ posStr currSim.brandPosition ++ "\n- Competitors present: "
      ++ joinOrNone currSim.competitorsFound
      ++ "\n\nImpact Summary: Your brand now appears in AI answers for this new query. This is a positive signal indicating improved visibility."
    query := currSim.query
    previousState := some { brandPosition := "not_tracked", score := 0 }
    currentState := { brandPosition := posStr currSim.brandPosition, score := 1 } }

/-- The gain alert pushed when the brand position strictly improved
(`checkVisibilityGains`, second branch). -/
def improvementGainAlert (prevSim currSim : SimulationResult) : Alert :=
  { type := .visibility_drop
    severity := .low
    message := "✅ ALERT TYPE: Gain\n\nQuery: \"" ++ currSim.query
      ++ "\"\nPrevious State:\n- Brand position: " ++ posStr prevSim.brandPosition
      ++ "\n\nCurrent State:\n- Brand position: " ++ posStr currSim.brandPosition
      ++ "\n\nImpact Summary: Your brand position improved from " ++ posStr prevSim.brandPosition
      ++ " to " ++ posStr currSim.brandPosition
      ++ ". AI models are now recommending your brand more prominently for this query."
    query := currSim.query
    previousState := some { brandPosition := posStr prevSim.brandPosition, score := 0 }
    currentState := { brandPosition := posStr currSim.brandPosition, score := 1 } }

/-- The strict position improvement test of `checkVisibilityGains`
(`bottom → middle or top`, `middle → top`). -/
def positionImproved (prev curr : BrandPosition) : Prop :=
  (prev = .bottom ∧ (curr = .middle ∨ curr = .top)) ∨ (prev = .middle ∧ curr = .top)

instance (prev curr : BrandPosition) : Decidable (positionImproved prev curr) := by
  unfold positionImproved; infer_instance

/-- The alerts contributed by one current simulation in `checkVisibilityGains`. -/
def gainAlertsFor (previous : List SimulationResult) (currSim : SimulationResult) : List Alert :=
  match findPrevSim previous currSim.query with
  | none => if currSim.brandFound then [newQueryGainAlert currSim] else []
  | some prevSim =>
    if currSim.brandFound ∧ prevSim.brandFound
        ∧ positionImproved prevSim.brandPosition currSim.brandPosition then
      [improvementGainAlert prevSim currSim]
    else []

/-- `checkVisibilityGains` from `alertMonitor.ts`. -/
def checkVisibilityGains : List SimulationResult → List SimulationResult → List Alert
  | [], _ => []
  | currSim :: rest, previous => gainAlertsFor previous currSim ++ checkVisibilityGains rest previous

/-- `generateAlerts` from `alertMonitor.ts`: first run returns no alerts;
otherwise the four rules run in order (drop, disappearance, overtake, gains). -/
def generateAlerts (current : CurrentRun) (previous : Option GEOAnalysisResult)
    (brand : String) : List Alert :=
  match previous with
  | none => []
  | some prev =>
    (match checkVisibilityDrop current.visibilityScore prev.visibilityScore with
      | some a => [a]
      | none => []) ++
    checkBrandDisappearance current.simulations prev.simulations ++
    checkCompetitorReplacement current.simulations prev.simulations brand ++
    checkVisibilityGains current.simulations prev.simulations

/-- `drops` in `summarizeAlerts`: `visibility_drop` alerts whose severity is not
`low` (low-severity drops are the reused gain alerts). -/
def countDrops (alerts : List Alert) : Nat :=
  (alerts.filter fun a => decide (a.type = AlertType.visibility_drop ∧ a.severity ≠ Severity.low)).length

/-- `threats` in `summarizeAlerts`: all `competitor_overtake` alerts. -/
def countThreats (alerts : List Alert) : Nat :=
  (alerts.filter fun a => decide (a.type = AlertType.competitor_overtake)).length

/-- `disappearances` in `summarizeAlerts`: all `brand_disappeared` alerts. -/
def countDisappearances (alerts : List Alert) : Nat :=
  (alerts.filter fun a => decide (a.type = AlertType.brand_disappeared)).length

/-- `gains` in `summarizeAlerts`: all severity-`low` alerts. -/
def countGains (alerts : List Alert) : Nat :=
  (alerts.filter fun a => decide (a.severity = Severity.low)).length

/-- `critical` in `summarizeAlerts`: drops plus threats plus disappearances. -/
def criticalCount (alerts : List Alert) : Nat :=
  countDrops alerts + countThreats alerts + countDisappearances alerts

/-- The `${n > 1 ? 's' : ''}` pluralisation used by `summarizeAlerts`. -/
def plural (n : Nat) : String := if n > 1 then "s" else ""

/-- `summarizeAlerts` from `alertMonitor.ts`. -/
def summarizeAlerts (alerts : List Alert) : String :=
  if alerts.length = 0 then "No significant visibility changes detected."
  else
    let drops := countDrops alerts
    let threats := countThreats alerts
    let disappearances := countDisappearances alerts
    let gains := countGains alerts
    let parts : List String :=
      (if drops > 0 then [toString drops ++ " visibility drop" ++ plural drops] else [])
        ++ (if threats > 0 then [toString threats ++ " competitor threat" ++ plural threats] else [])
        ++ (if disappearances > 0 then [toString disappearances ++ " disappearance" ++ plural disappearances] else [])
        ++ (if gains > 0 then [toString gains ++ " positive gain" ++ plural gains] else [])
    if criticalCount alerts > 0 then
      "⚠️ " ++ toString (criticalCount alerts) ++ " critical alert" ++ plural (criticalCount alerts)
        ++ ": " ++ String.intercalate ", " parts
    else
      "✅ " ++ toString gains ++ " positive signal" ++ plural gains ++ " detected."

/-! ### Concrete fixtures used to instantiate theorems -/

/-- A visibility score record carrying a given percentage (the other fields take
arbitrary legal values; the alert rules read only `percentage`). -/
def scoreAt (p : Rat) : VisibilityScore :=
  { score := 0, maxPossibleScore := 0, percentage := p, explanation := ""
    breakdown := ⟨0, 0, 0, 0, 0⟩ }

/-- A previous analysis run carrying a given visibility score and no simulations. -/
def runWithScore (v : VisibilityScore) : GEOAnalysisResult :=
  { request := { brand := "brand", industry := "industry", competitors := []
                 market := none, domain := none }
    simulations := [], visibilityScore := v }

/-- A simulation outcome in which the brand was found at the given position. -/
def simFound (q : String) (pos : BrandPosition) : SimulationResult :=
  { query := q, aiResponse := "", brandFound := true, brandPosition := pos
    competitorsFound := [], sentiment := .neutral }

/-- A simulation outcome in which the brand was not found. -/
def simAbsent (q : String) : SimulationResult :=
  { query := q, aiResponse := "", brandFound := false, brandPosition := .absent
    competitorsFound := [], sentiment := .neutral }

/-- An alert record with the given kind and severity (message fields arbitrary). -/
def alertOf (t : AlertType) (s : Severity) : Alert :=
  { type := t, severity := s, message := "", query := "q"
    previousState := none, currentState := { brandPosition := "absent", score := 0 } }

/-! ### visibilityScorer.ts -/

/-- `SCORING_WEIGHTS` from `visibilityScorer.ts`. -/
def BRAND_MENTIONED : Int := 2
def BRAND_TOP_POSITION : Int := 3
def BRAND_MIDDLE_POSITION : Int := 1
def BRAND_BOTTOM_POSITION : Int := 0
def COMPETITOR_PENALTY : Int := -1
def NEGATIVE_SENTIMENT_PENALTY : Int := -2

/-- Position bonus added inside the scorer's `switch (sim.brandPosition)`
(the `absent` case falls through with no bonus). -/
def positionBonus : BrandPosition → Int
  | .top => BRAND_TOP_POSITION
  | .middle => BRAND_MIDDLE_POSITION
  | .bottom => BRAND_BOTTOM_POSITION
  | .absent => 0

/-- The contribution of one simulation to `totalScore` in
`calculateVisibilityScore`: mention weight plus position bonus plus sentiment
penalty when the brand is found, minus one per competitor found. -/
def simRawScore (sim : SimulationResult) : Int :=
  (if sim.brandFound then
     BRAND_MENTIONED + positionBonus sim.brandPosition
       + (if sim.sentiment = .negative then NEGATIVE_SENTIMENT_PENALTY else 0)
   else 0)
    + sim.competitorsFound.length * COMPETITOR_PENALTY

/-- The accumulated `totalScore` before the final `Math.max(0, ·)` floor. -/
def rawTotalScore : List SimulationResult → Int
  | [] => 0
  | sim :: rest => simRawScore sim + rawTotalScore rest

/-- Number of simulations with the brand found (`brandMentions`). -/
def countBrandMentions (sims : List SimulationResult) : Nat :=
  (sims.filter (fun s => s.brandFound)).length

/-- Number of brand-found simulations at top position (`topPositions`). -/
def countTopPositions (sims : List SimulationResult) : Nat :=
  (sims.filter (fun s => s.brandFound && s.brandPosition == .top)).length

/-- Number of brand-found simulations at middle position (`middlePositions`). -/
def countMiddlePositions (sims : List SimulationResult) : Nat :=
  (sims.filter (fun s => s.brandFound && s.brandPosition == .middle)).length

/-- Accumulated `competitorPenalty` (absolute value of the per-competitor −1). -/
def totalCompetitorPenalty : List SimulationResult → Nat
  | [] => 0
  | sim :: rest => sim.competitorsFound.length + totalCompetitorPenalty rest

/-- Accumulated `sentimentPenalty` (2 per negatively-toned brand mention). -/
def totalSentimentPenalty : List SimulationResult → Nat
  | [] => 0
  | sim :: rest =>
    (if sim.brandFound ∧ sim.sentiment = .negative then 2 else 0) + totalSentimentPenalty rest

/-- `Math.round` for JavaScript numbers restricted to the rationals: round half
away from zero is round half up on the nonnegative values that occur here. -/
def jsRound (q : Rat) : Int := round q

/-- Percentage rounding used by `generateExplanation` for the mention and
top-position rates (`Math.round(a / b * 100)`); a zero denominator would be a
JavaScript `NaN`, which never reaches an assertion in this development. -/
def ratePct (a b : Nat) : Int := jsRound ((a : Rat) / (b : Rat) * 100)

/-- The qualitative band chosen by `generateExplanation`. -/
def visibilityLevel (percentage : Rat) : String :=
  if percentage ≥ 70 then "Strong"
  else if percentage ≥ 50 then "Moderate"
  else if percentage ≥ 25 then "Developing"
  else "Low"

/-- `generateExplanation` from `visibilityScorer.ts`. -/
def generateExplanation (totalQueries brandMentions topPositions middlePositions
    competitorPenalty sentimentPenalty : Nat) (percentage : Rat) : String :=
  let mentionRate := ratePct brandMentions totalQueries
  let topRate := if brandMentions > 0 then ratePct topPositions brandMentions else 0
  let base := visibilityLevel percentage ++ " AI visibility (" ++ toString percentage ++ "%). "
    ++ "Your brand was mentioned in " ++ toString brandMentions ++ "/" ++ toString totalQueries
    ++ " AI responses (" ++ toString mentionRate ++ "%). "
  let base := base ++
    (if topPositions > 0 then
       "You appeared in the top position " ++ toString topPositions ++ " time"
         ++ (if topPositions > 1 then "s" else "") ++ " (" ++ toString topRate ++ "% of mentions). "
     else "")
  let base := base ++
    (if middlePositions > 0 then "Middle position: " ++ toString middlePositions ++ " times. "
     else "")
  let base := base ++
    (if competitorPenalty > 0 then
       "Competitors were mentioned frequently, indicating competitive pressure. "
     else "")
  let base := base ++
    (if sentimentPenalty > 0 then "Some responses had negative sentiment about your brand. "
     else "")
  base.trim

/-- `calculateVisibilityScore` from `visibilityScorer.ts`. -/
def calculateVisibilityScore (simulations : List SimulationResult) (_brand : String) :
    VisibilityScore :=
  let maxPossibleScore : Int := simulations.length * (BRAND_MENTIONED + BRAND_TOP_POSITION)
  let totalScore : Int := max 0 (rawTotalScore simulations)
  let percentage : Int := jsRound ((totalScore : Rat) / (max 1 (maxPossibleScore : Rat)) * 100)
  let brandMentions := countBrandMentions simulations
  let topPositions := countTopPositions simulations
  let middlePositions := countMiddlePositions simulations
  let competitorPenalty := totalCompetitorPenalty simulations
  let sentimentPenalty := totalSentimentPenalty simulations
  { score := totalScore
    maxPossibleScore := maxPossibleScore
    percentage := (percentage : Rat)
    explanation := generateExplanation simulations.length brandMentions topPositions
      middlePositions competitorPenalty sentimentPenalty (percentage : Rat)
    breakdown :=
      { brandMentions := brandMentions
        topPositions := topPositions
        middlePositions := middlePositions
        competitorPenalty := competitorPenalty
        sentimentPenalty := sentimentPenalty } }

/-! ### String helpers shared by the agents (JavaScript string semantics) -/

/-- JavaScript `toLowerCase`, character by character (kept at the character
level so that proofs can evaluate it on literals). -/
def lowerStr (s : String) : String := String.mk (s.toList.map Char.toLower)

/-- JavaScript `String.prototype.replace` with a plain-string pattern: replaces
only the first occurrence (all patterns used in the source are nonempty). -/
def replaceFirst (s pat rep : String) : String :=
  match s.splitOn pat with
  | [] => s
  | [_] => s
  | first :: rest => first ++ rep ++ String.intercalate pat rest

/-- Leftmost character index at which `pat` occurs in `l` (JavaScript
`indexOf`, with `none` for −1). -/
def idxOfList (pat : List Char) : List Char → Option Nat
  | [] => if pat = [] then some 0 else none
  | c :: t =>
    if (c :: t).take pat.length = pat then some 0
    else (idxOfList pat t).map (· + 1)

/-- `indexOf` on strings, character-indexed. -/
def strIndexOf (s pat : String) : Option Nat := idxOfList pat.toList s.toList

/-- JavaScript `String.prototype.includes`. -/
def strIncludes (s pat : String) : Bool := (strIndexOf s pat).isSome

/-! ### searchSimulator.ts -/

/-- Intent labels of `GeneratedQuery` from `types.ts`. -/
inductive QueryIntent where
  | informational | commercial | comparison
deriving DecidableEq, Repr

/-- Category labels of `GeneratedQuery` from `types.ts`. -/
inductive QueryCategory where
  | best | versus | for_segment | how_to | what_is
deriving DecidableEq, Repr

/-- `GeneratedQuery` from `types.ts`. -/
structure GeneratedQuery where
  query : String
  intent : QueryIntent
  category : QueryCategory
deriving DecidableEq, Repr

/-- The positive keyword list of `analyzeResponse`. -/
def positiveWords : List String :=
  ["excellent", "great", "best", "top", "leading", "recommended", "popular", "trusted"]

/-- The negative keyword list of `analyzeResponse`. -/
def negativeWords : List String :=
  ["poor", "lacking", "limited", "issues", "problems", "concerns", "expensive"]

/-- A name with the first ".com" stripped and the first "." replaced by a space
(the display-name cleanup used by `queryGenerator.ts`, without lowering). -/
def strippedName (s : String) : String :=
  replaceFirst (replaceFirst s ".com" "") "." " "

/-- The lowered name with the first ".com" stripped and the first "." replaced
by a space (used for both brand and competitors in `analyzeResponse`). -/
def loweredName (name : String) : String :=
  strippedName (lowerStr name)

/-- The three matching variants `analyzeResponse` builds for a name: the lowered
form, the lowered form with all whitespace removed, and the raw lowercase name. -/
def nameVariants (name : String) : List String :=
  [loweredName name, String.mk ((loweredName name).toList.filter fun c => ¬ c.isWhitespace),
    lowerStr name]

/-- The variant loop of `extractBrandContext`: the first variant found in the
lowered response yields a window of up to 100 characters on each side of its
first occurrence (the response and its lowering have the same length). -/
def contextLoop (responseLower : String) : List String → String
  | [] => ""
  | v :: rest =>
    match strIndexOf responseLower v with
    | some index =>
      String.mk ((responseLower.toList.drop (index - 100)).take
        (min responseLower.length (index + v.length + 100) - (index - 100)))
    | none => contextLoop responseLower rest

/-- `extractBrandContext` from `searchSimulator.ts`. -/
def extractBrandContext (response : String) (brandVariants : List String) : String :=
  contextLoop (lowerStr response) brandVariants

/-- The record returned by the local text analysis of `analyzeResponse`. -/
structure ResponseAnalysis where
  brandFound : Bool
  brandPosition : BrandPosition
  competitorsFound : List String
  sentiment : Sentiment
deriving DecidableEq, Repr

/-- `analyzeResponse` from `searchSimulator.ts`: case-insensitive substring
matching over name variants, position from the relative offset of the first
mention (a zero-length response is the JavaScript NaN path, which falls through
both comparisons to `bottom`), and keyword sentiment over the context window. -/
def analyzeResponse (response brand : String) (competitors : List String) : ResponseAnalysis :=
  let responseLower := lowerStr response
  let brandVariants := nameVariants brand
  let brandFound := brandVariants.any fun v => strIncludes responseLower v
  let brandPosition :=
    if brandFound then
      match (brandVariants.filterMap fun v => strIndexOf responseLower v).min? with
      | none => BrandPosition.absent
      | some firstMentionIndex =>
        if response.length = 0 then BrandPosition.bottom
        else if (firstMentionIndex : Rat) / (response.length : Rat) < 33 / 100 then
          BrandPosition.top
        else if (firstMentionIndex : Rat) / (response.length : Rat) < 66 / 100 then
          BrandPosition.middle
        else BrandPosition.bottom
    else BrandPosition.absent
  let competitorsFound := competitors.filter fun competitor =>
    (nameVariants competitor).any fun v => strIncludes responseLower v
  let sentiment :=
    if brandFound then
      let brandContext := extractBrandContext response brandVariants
      let positiveCount := (positiveWords.filter fun w => strIncludes brandContext w).length
      let negativeCount := (negativeWords.filter fun w => strIncludes brandContext w).length
      if positiveCount > negativeCount then Sentiment.positive
      else if negativeCount > positiveCount then Sentiment.negative
      else Sentiment.neutral
    else Sentiment.neutral
  { brandFound := brandFound, brandPosition := brandPosition
    competitorsFound := competitorsFound, sentiment := sentiment }

/-- The prompt template of `generateAIResponse` in `searchSimulator.ts`. -/
def searchPrompt (query : String) : String :=
  "You are a helpful AI assistant answering a user's question. Respond naturally and informatively.\n\nUser Question: "
    ++ query
    ++ "\n\nGuidelines:\n- Be helpful and informative\n- Mention relevant products/services if applicable\n- Do NOT force any brand mentions - only mention brands if truly relevant\n- Keep response concise (2-3 paragraphs max)\n- Be neutral and objective"

/-- `generateAIResponse` from `searchSimulator.ts`; the text-completion oracle is
an explicit parameter and `none` models a thrown `OracleError` (the system
prompt and temperature options are part of the opaque oracle). -/
def generateAIResponse (oracle : String → Option String) (query : String) : Option String :=
  oracle (searchPrompt query)

/-- `simulateSearch` from `searchSimulator.ts`: one oracle response, then local
analysis; fails (throws) exactly when the oracle call does. -/
def simulateSearch (oracle : String → Option String) (query : GeneratedQuery)
    (brand : String) (competitors : List String) : Option SimulationResult :=
  (generateAIResponse oracle query.query).map fun aiResponse =>
    let analysis := analyzeResponse aiResponse brand competitors
    { query := query.query
      aiResponse := aiResponse
      brandFound := analysis.brandFound
      brandPosition := analysis.brandPosition
      competitorsFound := analysis.competitorsFound
      sentiment := analysis.sentiment }

/-- The placeholder outcome pushed by `simulateAllSearches` when one simulation
fails. -/
def failedSimulationResult (q : String) : SimulationResult :=
  { query := q, aiResponse := "", brandFound := false, brandPosition := .absent
    competitorsFound := [], sentiment := .neutral }

/-- `simulateAllSearches` from `searchSimulator.ts`: one outcome per query in
input order, substituting the placeholder when a simulation fails. -/
def simulateAllSearches (oracle : String → Option String) (queries : List GeneratedQuery)
    (brand : String) (competitors : List String) : List SimulationResult :=
  queries.map fun query =>
    match simulateSearch oracle query brand competitors with
    | some result => result
    | none => failedSimulationResult query.query

/-! ### queryGenerator.ts -/

/-- `QUERY_PATTERNS.best` from `queryGenerator.ts`. -/
def QUERY_PATTERNS_best : List String :=
  ["best \x7bindustry\x7d in \x7bmarket\x7d", "best \x7bindustry\x7d for startups",
    "best \x7bindustry\x7d for small business", "best \x7bindustry\x7d for enterprises",
    "top \x7bindustry\x7d \x7bmarket\x7d"]

/-- `QUERY_PATTERNS.versus` from `queryGenerator.ts` (declared in the source but
not read by `generateQueries`, which instantiates versus queries directly). -/
def QUERY_PATTERNS_versus : List String :=
  ["\x7bbrand\x7d vs \x7bcompetitor\x7d", "\x7bcompetitor\x7d vs \x7bbrand\x7d",
    "\x7bbrand\x7d alternatives", "\x7bbrand\x7d competitors"]

/-- `QUERY_PATTERNS.for_segment` from `queryGenerator.ts`. -/
def QUERY_PATTERNS_for_segment : List String :=
  ["\x7bindustry\x7d for Indian startups", "\x7bindustry\x7d for SMBs",
    "\x7bindustry\x7d for enterprise", "affordable \x7bindustry\x7d for small business"]

/-- `QUERY_PATTERNS.how_to` from `queryGenerator.ts`. -/
def QUERY_PATTERNS_how_to : List String :=
  ["how to choose \x7bindustry\x7d", "how to evaluate \x7bindustry\x7d",
    "what to look for in \x7bindustry\x7d"]

/-- `QUERY_PATTERNS.what_is` from `queryGenerator.ts`. -/
def QUERY_PATTERNS_what_is : List String :=
  ["what is the best \x7bindustry\x7d", "which \x7bindustry\x7d should I use",
    "recommended \x7bindustry\x7d for \x7bmarket\x7d"]

/-- The deterministic pattern-based portion of `generateQueries`: five template
buckets, with versus queries instantiated for at most the first 3 competitors in
both orderings. -/
def patternQueries (request : GEOAnalysisRequest) : List GeneratedQuery :=
  let market := request.market.getD "India"
  let best := QUERY_PATTERNS_best.map fun p =>
    { query := replaceFirst (replaceFirst p "\x7bindustry\x7d" request.industry)
        "\x7bmarket\x7d" market
      intent := QueryIntent.commercial, category := QueryCategory.best }
  let versus := (request.competitors.take 3).foldr
    (fun competitor acc =>
      let competitorName := strippedName competitor
      let brandName := strippedName request.brand
      { query := brandName ++ " vs " ++ competitorName
        intent := QueryIntent.comparison, category := QueryCategory.versus } ::
      { query := competitorName ++ " vs " ++ brandName
        intent := QueryIntent.comparison, category := QueryCategory.versus } :: acc)
    []
  let seg := QUERY_PATTERNS_for_segment.map fun p =>
    { query := replaceFirst p "\x7bindustry\x7d" request.industry
      intent := QueryIntent.commercial, category := QueryCategory.for_segment }
  let how := QUERY_PATTERNS_how_to.map fun p =>
    { query := replaceFirst p "\x7bindustry\x7d" request.industry
      intent := QueryIntent.informational, category := QueryCategory.how_to }
  let what := QUERY_PATTERNS_what_is.map fun p =>
    { query := replaceFirst (replaceFirst p "\x7bindustry\x7d" request.industry)
        "\x7bmarket\x7d" market
      intent := QueryIntent.informational, category := QueryCategory.what_is }
  best ++ versus ++ seg ++ how ++ what

/-- `generateQueries` from `queryGenerator.ts`.  The oracle-augmented portion is
a parameter: `some ai` is the (already parsed and mapped) `generateAIQueries`
result, and `none` models a thrown oracle error, in which case the catch branch
returns the pattern queries alone; both arms cap the result at 20. -/
def generateQueries (request : GEOAnalysisRequest)
    (aiQueries : Option (List GeneratedQuery)) : List GeneratedQuery :=
  match aiQueries with
  | some ai => (patternQueries request ++ ai).take 20
  | none => (patternQueries request).take 20

/-! ### memoryStore.ts -/

/-- `normalizeBrandKey` from `memoryStore.ts`: lowercase, strip a leading
"www." and a trailing "/" (both regexes are anchored, so one occurrence each). -/
def normalizeBrandKey (brand : String) : String :=
  let lowered := lowerStr brand
  let noWWW :=
    if lowered.toList.take 4 = "www.".toList then String.mk (lowered.toList.drop 4) else lowered
  if noWWW.toList.getLast? = some '/' then String.mk noWWW.toList.dropLast else noWWW

/-- The `analysisHistory` map, modelled as a total function from brand keys to
run lists (a missing map entry is the `|| []` default). -/
def MemStore : Type := String → List GEOAnalysisResult

/-- The initial empty history map. -/
def emptyHistory : MemStore := fun _ => []

/-- `storeAnalysisResult` from `memoryStore.ts`: append under the normalized
brand key, then keep only the last 100 runs. -/
def storeAnalysisResult (result : GEOAnalysisResult) (store : MemStore) : MemStore :=
  let brandKey := normalizeBrandKey result.request.brand
  let existing := store brandKey ++ [result]
  let trimmed := if existing.length > 100 then existing.drop (existing.length - 100) else existing
  fun k => if k = brandKey then trimmed else store k

/-- `getLatestAnalysis` from `memoryStore.ts`. -/
def getLatestAnalysis (brand : String) (store : MemStore) : Option GEOAnalysisResult :=
  let history := store (normalizeBrandKey brand)
  if history.length = 0 then none
  else history[history.length - 1]?

/-- `getPreviousAnalysis` from `memoryStore.ts`. -/
def getPreviousAnalysis (brand : String) (store : MemStore) : Option GEOAnalysisResult :=
  let history := store (normalizeBrandKey brand)
  if history.length < 2 then none
  else history[history.length - 2]?

/-- A sequence of `storeAnalysisResult` calls in arrival order. -/
def storeAll (results : List GEOAnalysisResult) (store : MemStore) : MemStore :=
  results.foldl (fun s r => storeAnalysisResult r s) store

/-- The last `n` elements of a list. -/
def lastN (n : Nat) (l : List α) : List α := l.drop (l.length - n)

/-! ## Theorems -/

/-- Each simulation contributes at most the mention weight plus the top bonus. -/
lemma simRawScore_le (sim : SimulationResult) : simRawScore sim ≤ 5 := by
  unfold simRawScore positionBonus BRAND_MENTIONED BRAND_TOP_POSITION BRAND_MIDDLE_POSITION
    BRAND_BOTTOM_POSITION NEGATIVE_SENTIMENT_PENALTY COMPETITOR_PENALTY
  cases h : sim.brandFound <;> cases sim.brandPosition <;> cases sim.sentiment <;> simp <;> omega

/-- The raw total never exceeds five points per simulation. -/
lemma rawTotalScore_le (sims : List SimulationResult) :
    rawTotalScore sims ≤ 5 * sims.length := by
  induction sims with
  | nil => simp [rawTotalScore]
  | cons sim rest ih =>
    have h := simRawScore_le sim
    simp only [rawTotalScore, List.length_cons]
    push_cast
    omega

/-- The floored total stays below the maximum possible score. -/
lemma flooredTotal_le (sims : List SimulationResult) :
    max 0 (rawTotalScore sims) ≤ (sims.length : Int) * (BRAND_MENTIONED + BRAND_TOP_POSITION) := by
  have h := rawTotalScore_le sims
  simp only [BRAND_MENTIONED, BRAND_TOP_POSITION]
  omega

/-- `jsRound` maps nonnegative inputs to nonnegative integers. -/
lemma jsRound_nonneg {q : Rat} (h : 0 ≤ q) : 0 ≤ jsRound q := by
  unfold jsRound
  rw [round_eq]
  exact Int.floor_nonneg.mpr (by linarith)

/-- `jsRound` never exceeds 100 on inputs bounded by 100. -/
lemma jsRound_le_100 {q : Rat} (h : q ≤ 100) : jsRound q ≤ 100 := by
  unfold jsRound
  rw [round_eq]
  rw [Int.floor_le_iff]
  push_cast
  linarith

/-- C3: with no previous run, `generateAlerts` returns the empty list for every
current run and brand — first runs are baselines, not incidents. -/
theorem generateAlerts_no_previous (current : CurrentRun) (brand : String) :
    generateAlerts current none brand = [] := rfl

/-- C4: `calculateVisibilityScore` is deterministic, its percentage lies in
[0, 100], and the percentage is the half-up rounding of
`total / max(1, maxPossible) × 100` computed after the total is floored at 0. -/
theorem calculateVisibilityScore_bounds (sims : List SimulationResult) (brand : String) :
    calculateVisibilityScore sims brand = calculateVisibilityScore sims brand
    ∧ 0 ≤ (calculateVisibilityScore sims brand).percentage
    ∧ (calculateVisibilityScore sims brand).percentage ≤ 100
    ∧ (calculateVisibilityScore sims brand).score = max 0 (rawTotalScore sims)
    ∧ (calculateVisibilityScore sims brand).percentage =
        ((jsRound (((calculateVisibilityScore sims brand).score : Rat) /
          (max 1 ((calculateVisibilityScore sims brand).maxPossibleScore : Rat)) * 100) : Int) : Rat) := by
  refine ⟨rfl, ?_, ?_, rfl, rfl⟩
  · have hq : (0 : Rat) ≤ ((max 0 (rawTotalScore sims) : Int) : Rat) /
        (max 1 (((sims.length : Int) * (BRAND_MENTIONED + BRAND_TOP_POSITION) : Int) : Rat)) * 100 := by
      apply mul_nonneg _ (by norm_num)
      apply div_nonneg
      · exact_mod_cast le_max_left 0 (rawTotalScore sims)
      · exact le_trans (by norm_num) (le_max_left 1 _)
    have := jsRound_nonneg hq
    simp only [calculateVisibilityScore]
    exact_mod_cast this
  · have hs : ((max 0 (rawTotalScore sims) : Int) : Rat) ≤
        max 1 (((sims.length : Int) * (BRAND_MENTIONED + BRAND_TOP_POSITION) : Int) : Rat) := by
      have h1 := flooredTotal_le sims
      have h2 : (((sims.length : Int) * (BRAND_MENTIONED + BRAND_TOP_POSITION) : Int) : Rat) ≤
          max 1 (((sims.length : Int) * (BRAND_MENTIONED + BRAND_TOP_POSITION) : Int) : Rat) :=
        le_max_right 1 _
      calc ((max 0 (rawTotalScore sims) : Int) : Rat)
          ≤ (((sims.length : Int) * (BRAND_MENTIONED + BRAND_TOP_POSITION) : Int) : Rat) := by
            exact_mod_cast h1
        _ ≤ _ := h2
    have hm : (0 : Rat) < max 1 (((sims.length : Int) * (BRAND_MENTIONED + BRAND_TOP_POSITION) : Int) : Rat) :=
      lt_of_lt_of_le (by norm_num) (le_max_left 1 _)
    have hq : ((max 0 (rawTotalScore sims) : Int) : Rat) /
        (max 1 (((sims.length : Int) * (BRAND_MENTIONED + BRAND_TOP_POSITION) : Int) : Rat)) * 100 ≤ 100 := by
      have hdiv : ((max 0 (rawTotalScore sims) : Int) : Rat) /
          (max 1 (((sims.length : Int) * (BRAND_MENTIONED + BRAND_TOP_POSITION) : Int) : Rat)) ≤ 1 :=
        (div_le_one hm).mpr hs
      nlinarith [hdiv]
    have := jsRound_le_100 hq
    simp only [calculateVisibilityScore]
    exact_mod_cast this

/-- C10: the score returned by `calculateVisibilityScore` never exceeds the
returned `maxPossibleScore`, which equals 5 times the number of outcomes, so the
percentage stays at or below 100 with no clamping. -/
theorem score_le_maxPossibleScore (sims : List SimulationResult) (brand : String) :
    (calculateVisibilityScore sims brand).score ≤ (calculateVisibilityScore sims brand).maxPossibleScore
    ∧ (calculateVisibilityScore sims brand).maxPossibleScore = 5 * (sims.length : Int)
    ∧ (calculateVisibilityScore sims brand).percentage ≤ 100 := by
  refine ⟨?_, ?_, ((calculateVisibilityScore_bounds sims brand).2.2.1)⟩
  · simp only [calculateVisibilityScore]
    exact flooredTotal_le sims
  · simp only [calculateVisibilityScore, BRAND_MENTIONED, BRAND_TOP_POSITION]
    ring

/-- C1 (amended): whenever the absolute drop is ≥ 20 or (with a positive previous
percentage) the relative drop is ≥ 20, the drop rule produces exactly one
`visibility_drop` alert, which `generateAlerts` places first; its severity is
`high` when the absolute drop is ≥ 30, `medium` when it is ≥ 20, and `low`
otherwise (a trigger by relative drop alone). -/
theorem dropRule_alert (P C : VisibilityScore)
    (h : P.percentage - C.percentage ≥ 20
      ∨ (P.percentage > 0 ∧ (P.percentage - C.percentage) / P.percentage * 100 ≥ 20)) :
    ∃ a, checkVisibilityDrop C P = some a
      ∧ a.type = AlertType.visibility_drop
      ∧ a.severity = (if P.percentage - C.percentage ≥ 30 then Severity.high
          else if P.percentage - C.percentage ≥ 20 then Severity.medium else Severity.low)
      ∧ ∀ (sims : List SimulationResult) (prev : GEOAnalysisResult) (brand : String),
          prev.visibilityScore = P →
          ∃ rest, generateAlerts ⟨sims, C⟩ (some prev) brand = a :: rest := by
  have hcond : P.percentage - C.percentage ≥ 20
      ∨ (if P.percentage > 0 then (P.percentage - C.percentage) / P.percentage * 100 else 0) ≥ 20 := by
    rcases h with h | ⟨hpos, hrel⟩
    · exact Or.inl h
    · right
      rw [if_pos hpos]
      exact hrel
  have hsome : checkVisibilityDrop C P = some
      { type := AlertType.visibility_drop
        severity := if P.percentage - C.percentage ≥ 30 then Severity.high
          else if P.percentage - C.percentage ≥ 20 then Severity.medium else Severity.low
        message := formatDropAlert P.percentage C.percentage (P.percentage - C.percentage)
        query := "Overall visibility score"
        previousState := some { brandPosition := "N/A", score := P.percentage }
        currentState := { brandPosition := "N/A", score := C.percentage } } := by
    simp only [checkVisibilityDrop]
    rw [if_pos hcond]
  refine ⟨_, hsome, rfl, rfl, ?_⟩
  intro sims prev brand hP
  refine ⟨checkBrandDisappearance sims prev.simulations
    ++ checkCompetitorReplacement sims prev.simulations brand
    ++ checkVisibilityGains sims prev.simulations, ?_⟩
  simp only [generateAlerts, hP]
  rw [hsome]
  rfl

/-- C1 counterexample: previous percentage 50, current percentage 35 — the
relative drop is 30 ≥ 20, so the rule fires, but the emitted alert has severity
`low`, not `medium`; moreover with previous 80 and current 55 a brand-found
outcome for a new query makes `generateAlerts` emit a second alert of kind
`visibility_drop` (the gain alert reuses the kind), so the run does not carry
exactly one `visibility_drop` alert. -/
theorem dropRule_severity_counterexample :
    (((scoreAt 50).percentage - (scoreAt 35).percentage) / (scoreAt 50).percentage * 100 ≥ 20
    ∧ (generateAlerts ⟨[], scoreAt 35⟩ (some (runWithScore (scoreAt 50))) "brand").map
        (fun a => (a.type, a.severity)) = [(AlertType.visibility_drop, Severity.low)])
    ∧ ((scoreAt 80).percentage - (scoreAt 55).percentage ≥ 20
    ∧ (generateAlerts ⟨[simFound "q" .top], scoreAt 55⟩
          (some (runWithScore (scoreAt 80))) "brand").map (fun a => (a.type, a.severity)) =
        [(AlertType.visibility_drop, Severity.medium), (AlertType.visibility_drop, Severity.low)]) := by
  refine ⟨⟨?_, ?_⟩, ?_, ?_⟩
  · norm_num [scoreAt]
  · simp only [generateAlerts, runWithScore, scoreAt, checkVisibilityDrop,
      checkBrandDisappearance, checkCompetitorReplacement, checkVisibilityGains, List.foldl]
    norm_num
  · norm_num [scoreAt]
  · simp only [generateAlerts, runWithScore, scoreAt, simFound, checkVisibilityDrop,
      checkBrandDisappearance, disappearanceStep, checkCompetitorReplacement, overtakeStep,
      checkVisibilityGains, gainAlertsFor, newQueryGainAlert, findPrevSim, List.foldl,
      List.find?]
    norm_num

/-- C1 witness: previous percentage 80, current 55 (absolute drop 25) yields one
`visibility_drop` alert of severity `medium` at the head of the alert list. -/
theorem dropRule_alert_witness :
    ((scoreAt 80).percentage - (scoreAt 55).percentage ≥ 20
      ∨ ((scoreAt 80).percentage > 0
          ∧ ((scoreAt 80).percentage - (scoreAt 55).percentage) / (scoreAt 80).percentage * 100 ≥ 20))
    ∧ ∃ a rest, checkVisibilityDrop (scoreAt 55) (scoreAt 80) = some a
        ∧ a.type = AlertType.visibility_drop
        ∧ a.severity = Severity.medium
        ∧ generateAlerts ⟨[], scoreAt 55⟩ (some (runWithScore (scoreAt 80))) "b" = a :: rest := by
  have h : (scoreAt 80).percentage - (scoreAt 55).percentage ≥ 20
      ∨ ((scoreAt 80).percentage > 0
          ∧ ((scoreAt 80).percentage - (scoreAt 55).percentage) / (scoreAt 80).percentage * 100 ≥ 20) := by
    left
    norm_num [scoreAt]
  refine ⟨h, ?_⟩
  obtain ⟨a, hsome, htype, hsev, hgen⟩ := dropRule_alert (scoreAt 80) (scoreAt 55) h
  obtain ⟨rest, hrest⟩ := hgen [] (runWithScore (scoreAt 80)) "b" rfl
  refine ⟨a, rest, hsome, htype, ?_, hrest⟩
  rw [hsev]
  norm_num [scoreAt]

/-- Every alert contributed by one simulation in the gains rule is a low-severity
`visibility_drop` alert carrying that simulation's query. -/
lemma gainAlertsFor_mem (previous : List SimulationResult) (s : SimulationResult) :
    ∀ a ∈ gainAlertsFor previous s,
      a.severity = Severity.low ∧ a.type = AlertType.visibility_drop ∧ a.query = s.query := by
  intro a ha
  cases hfind : findPrevSim previous s.query with
  | none =>
    simp only [gainAlertsFor, hfind] at ha
    by_cases hb : s.brandFound = true
    · rw [if_pos hb] at ha
      simp only [List.mem_singleton] at ha
      subst ha
      exact ⟨rfl, rfl, rfl⟩
    · rw [if_neg hb] at ha
      simp at ha
  | some p =>
    simp only [gainAlertsFor, hfind] at ha
    by_cases hc : s.brandFound = true ∧ p.brandFound = true
        ∧ positionImproved p.brandPosition s.brandPosition
    · rw [if_pos hc] at ha
      simp only [List.mem_singleton] at ha
      subst ha
      exact ⟨rfl, rfl, rfl⟩
    · rw [if_neg hc] at ha
      simp at ha

/-- Membership in the gains rule output is membership in some simulation's
contribution. -/
lemma mem_checkVisibilityGains (current previous : List SimulationResult) (a : Alert) :
    a ∈ checkVisibilityGains current previous ↔
      ∃ s ∈ current, a ∈ gainAlertsFor previous s := by
  induction current with
  | nil => simp [checkVisibilityGains]
  | cons c rest ih =>
    simp only [checkVisibilityGains, List.mem_append, ih, List.mem_cons]
    constructor
    · rintro (h | ⟨s, hs, hmem⟩)
      · exact ⟨c, Or.inl rfl, h⟩
      · exact ⟨s, Or.inr hs, hmem⟩
    · rintro ⟨s, hs | hs, hmem⟩
      · subst hs; exact Or.inl hmem
      · exact Or.inr ⟨s, hs, hmem⟩

/-- C2 (amended): every gains-rule alert has severity `low` (and kind
`visibility_drop`); a gain alert is emitted for each current outcome whose query
was not simulated in the previous run and where the brand is found, and for each
query present in both runs where the brand is found in both and its position
strictly improved (`bottom → middle/top` or `middle → top`). -/
theorem gainsRule_spec (current previous : List SimulationResult) :
    (∀ a ∈ checkVisibilityGains current previous,
        a.severity = Severity.low ∧ a.type = AlertType.visibility_drop)
    ∧ ∀ s ∈ current,
        ((findPrevSim previous s.query = none ∧ s.brandFound) →
          ∃ a ∈ checkVisibilityGains current previous,
            a.query = s.query ∧ a.severity = Severity.low)
        ∧ (∀ p, findPrevSim previous s.query = some p → s.brandFound → p.brandFound →
            positionImproved p.brandPosition s.brandPosition →
            ∃ a ∈ checkVisibilityGains current previous,
              a.query = s.query ∧ a.severity = Severity.low) := by
  constructor
  · intro a ha
    obtain ⟨s, _, hmem⟩ := (mem_checkVisibilityGains current previous a).mp ha
    obtain ⟨h1, h2, _⟩ := gainAlertsFor_mem previous s a hmem
    exact ⟨h1, h2⟩
  · intro s hs
    constructor
    · rintro ⟨hfind, hb⟩
      have hmem : newQueryGainAlert s ∈ gainAlertsFor previous s := by
        simp only [gainAlertsFor, hfind]
        rw [if_pos hb]
        exact List.mem_singleton_self _
      refine ⟨newQueryGainAlert s, ?_, rfl, rfl⟩
      exact (mem_checkVisibilityGains current previous _).mpr ⟨s, hs, hmem⟩
    · intro p hfind hsb hpb himp
      have hmem : improvementGainAlert p s ∈ gainAlertsFor previous s := by
        simp only [gainAlertsFor, hfind]
        rw [if_pos ⟨hsb, hpb, himp⟩]
        exact List.mem_singleton_self _
      refine ⟨improvementGainAlert p s, ?_, rfl, rfl⟩
      exact (mem_checkVisibilityGains current previous _).mpr ⟨s, hs, hmem⟩

/-- C2 counterexample: the brand was absent from query "q" in the previous run
(an outcome with `brandFound = false` exists for "q") and appears at top now,
yet the gains rule emits no alert — the new-appearance branch fires only when
the query has no previous outcome at all. -/
theorem gainsRule_counterexample :
    (simAbsent "q").brandFound = false
    ∧ (simFound "q" .top).brandFound = true
    ∧ (simFound "q" .top).query = (simAbsent "q").query
    ∧ checkVisibilityGains [simFound "q" .top] [simAbsent "q"] = [] := by
  refine ⟨rfl, rfl, rfl, ?_⟩
  decide

/-- C2 witness: a current outcome for a previously untracked query with the brand
found yields a low-severity gain alert for that query. -/
theorem gainsRule_spec_witness :
    (findPrevSim [] (simFound "new query" .top).query = none ∧ (simFound "new query" .top).brandFound)
    ∧ ∃ a ∈ checkVisibilityGains [simFound "new query" .top] [],
        a.query = (simFound "new query" .top).query ∧ a.severity = Severity.low := by
  refine ⟨⟨rfl, rfl⟩, ?_⟩
  exact ((gainsRule_spec [simFound "new query" .top] []).2 (simFound "new query" .top)
    (List.mem_singleton_self _)).1 ⟨rfl, rfl⟩

/-- Membership in a conditional list is membership in one of the branches. -/
lemma mem_ite_cases {α : Type} (cond : Prop) [Decidable cond] {l₁ l₂ : List α} {a : α}
    (h : a ∈ if cond then l₁ else l₂) : a ∈ l₁ ∨ a ∈ l₂ := by
  split_ifs at h
  · exact Or.inl h
  · exact Or.inr h

/-- Membership in a conditional append: either an old element or the new one. -/
lemma mem_if_append {α : Type} (cond : Prop) [Decidable cond] (l : List α) (x a : α)
    (h : a ∈ if cond then l ++ [x] else l) : a ∈ l ∨ a = x := by
  split_ifs at h
  · rcases List.mem_append.mp h with h | h
    · exact Or.inl h
    · exact Or.inr (List.mem_singleton.mp h)
  · exact Or.inl h

/-- A fold that only appends alerts satisfying `P` preserves `P` over all
members of its result. -/
lemma foldl_alert_invariant {σ : Type} (P : Alert → Prop) (step : List Alert → σ → List Alert)
    (hstep : ∀ acc c a, a ∈ step acc c → a ∈ acc ∨ P a) :
    ∀ (l : List σ) (acc : List Alert), (∀ a ∈ acc, P a) →
      ∀ a ∈ l.foldl step acc, P a := by
  intro l
  induction l with
  | nil =>
    intro acc hacc
    simpa using hacc
  | cons c rest ih =>
    intro acc hacc
    simp only [List.foldl_cons]
    refine ih _ ?_
    intro a ha
    rcases hstep acc c a ha with h | h
    · exact hacc a h
    · exact h

/-- Alerts added by a disappearance step are medium/high `brand_disappeared`. -/
lemma disappearanceStep_mem (previous : List SimulationResult) (acc : List Alert)
    (c : SimulationResult) (a : Alert) (ha : a ∈ disappearanceStep previous acc c) :
    a ∈ acc ∨ (a.type = AlertType.brand_disappeared ∧ a.severity ≠ Severity.low) := by
  cases hfind : findPrevSim previous c.query with
  | none =>
    simp only [disappearanceStep, hfind] at ha
    exact Or.inl ha
  | some p =>
    simp only [disappearanceStep, hfind] at ha
    rcases mem_if_append _ _ _ _ ha with h | rfl
    · rcases mem_if_append _ _ _ _ h with h' | rfl
      · exact Or.inl h'
      · exact Or.inr ⟨rfl, by simp⟩
    · exact Or.inr ⟨rfl, by simp⟩

/-- Every disappearance-rule alert is a medium/high `brand_disappeared` alert. -/
lemma checkBrandDisappearance_mem (current previous : List SimulationResult) :
    ∀ a ∈ checkBrandDisappearance current previous,
      a.type = AlertType.brand_disappeared ∧ a.severity ≠ Severity.low := by
  unfold checkBrandDisappearance
  exact foldl_alert_invariant _ _
    (fun acc c a ha => disappearanceStep_mem previous acc c a ha) current [] (by simp)

/-- Alerts added by an overtake step are high-severity `competitor_overtake`. -/
lemma overtakeStep_mem (previous : List SimulationResult) (acc : List Alert)
    (c : SimulationResult) (a : Alert) (ha : a ∈ overtakeStep previous acc c) :
    a ∈ acc ∨ (a.type = AlertType.competitor_overtake ∧ a.severity = Severity.high) := by
  cases hfind : findPrevSim previous c.query with
  | none =>
    simp only [overtakeStep, hfind] at ha
    exact Or.inl ha
  | some p =>
    simp only [overtakeStep, hfind] at ha
    rcases mem_ite_cases _ ha with h | h
    · rcases mem_ite_cases _ h with h' | h'
      · rcases List.mem_append.mp h' with h'' | h''
        · exact Or.inl h''
        · rw [List.mem_singleton.mp h'']
          exact Or.inr ⟨rfl, rfl⟩
      · exact Or.inl h'
    · exact Or.inl h

/-- Every overtake-rule alert is a high-severity `competitor_overtake` alert. -/
lemma checkCompetitorReplacement_mem (current previous : List SimulationResult) (brand : String) :
    ∀ a ∈ checkCompetitorReplacement current previous brand,
      a.type = AlertType.competitor_overtake ∧ a.severity = Severity.high := by
  unfold checkCompetitorReplacement
  exact foldl_alert_invariant _ _
    (fun acc c a ha => overtakeStep_mem previous acc c a ha) current [] (by simp)

/-- An alert produced by the drop rule has kind `visibility_drop`. -/
lemma checkVisibilityDrop_type (C P : VisibilityScore) (a : Alert)
    (h : checkVisibilityDrop C P = some a) : a.type = AlertType.visibility_drop := by
  simp only [checkVisibilityDrop] at h
  by_cases hc : P.percentage - C.percentage ≥ 20
      ∨ (if P.percentage > 0 then (P.percentage - C.percentage) / P.percentage * 100 else 0) ≥ 20
  · rw [if_pos hc] at h
    simp only [Option.some.injEq] at h
    subst h
    rfl
  · rw [if_neg hc] at h
    exact absurd h (by simp)

/-- Head expansion for `countDrops`. -/
lemma countDrops_cons (a : Alert) (rest : List Alert) :
    countDrops (a :: rest) =
      (if a.type = AlertType.visibility_drop ∧ a.severity ≠ Severity.low then 1 else 0)
        + countDrops rest := by
  by_cases hpa : a.type = AlertType.visibility_drop ∧ a.severity ≠ Severity.low <;>
    simp [countDrops, List.filter_cons, hpa] <;> omega

/-- Head expansion for `countThreats`. -/
lemma countThreats_cons (a : Alert) (rest : List Alert) :
    countThreats (a :: rest) =
      (if a.type = AlertType.competitor_overtake then 1 else 0) + countThreats rest := by
  by_cases hpa : a.type = AlertType.competitor_overtake <;>
    simp [countThreats, List.filter_cons, hpa] <;> omega

/-- Head expansion for `countDisappearances`. -/
lemma countDisappearances_cons (a : Alert) (rest : List Alert) :
    countDisappearances (a :: rest) =
      (if a.type = AlertType.brand_disappeared then 1 else 0) + countDisappearances rest := by
  by_cases hpa : a.type = AlertType.brand_disappeared <;>
    simp [countDisappearances, List.filter_cons, hpa] <;> omega

/-- Head expansion for `countGains`. -/
lemma countGains_cons (a : Alert) (rest : List Alert) :
    countGains (a :: rest) =
      (if a.severity = Severity.low then 1 else 0) + countGains rest := by
  by_cases hpa : a.severity = Severity.low <;>
    simp [countGains, List.filter_cons, hpa] <;> omega

/-- Head expansion for the count of non-low-severity alerts. -/
lemma nonLowCount_cons (a : Alert) (rest : List Alert) :
    ((a :: rest).filter fun x => decide (x.severity ≠ Severity.low)).length =
      (if a.severity ≠ Severity.low then 1 else 0)
        + (rest.filter fun x => decide (x.severity ≠ Severity.low)).length := by
  by_cases hpa : a.severity ≠ Severity.low <;>
    simp [List.filter_cons, hpa] <;> omega

/-- C5 (amended): `generateAlerts` never gives `competitor_overtake` or
`brand_disappeared` alerts severity `low`, and on any alert list with that
invariant the critical count of `summarizeAlerts` equals the number of
non-low-severity (non-gain) alerts, the gains bucket being exactly the
low-severity complement. -/
theorem summarizeAlerts_critical_classification :
    (∀ (current : CurrentRun) (prev : GEOAnalysisResult) (brand : String),
      ∀ a ∈ generateAlerts current (some prev) brand,
        (a.type = AlertType.competitor_overtake ∨ a.type = AlertType.brand_disappeared) →
        a.severity ≠ Severity.low)
    ∧ ∀ (alerts : List Alert),
        (∀ a ∈ alerts,
          (a.type = AlertType.competitor_overtake ∨ a.type = AlertType.brand_disappeared) →
          a.severity ≠ Severity.low) →
        criticalCount alerts = (alerts.filter fun a => decide (a.severity ≠ Severity.low)).length
        ∧ criticalCount alerts + countGains alerts = alerts.length := by
  constructor
  · intro current prev brand a ha htype
    simp only [generateAlerts] at ha
    rcases List.mem_append.mp ha with hl | hgain
    · rcases List.mem_append.mp hl with hl2 | hover
      · rcases List.mem_append.mp hl2 with hdrop | hdis
        · have hvd : a.type = AlertType.visibility_drop := by
            cases hv : checkVisibilityDrop current.visibilityScore prev.visibilityScore with
            | none => rw [hv] at hdrop; simp at hdrop
            | some x =>
              rw [hv] at hdrop
              simp only [List.mem_singleton] at hdrop
              subst hdrop
              exact checkVisibilityDrop_type _ _ _ hv
          rcases htype with h | h <;> rw [hvd] at h <;> exact absurd h (by decide)
        · exact (checkBrandDisappearance_mem _ _ a hdis).2
      · intro hlow
        have := (checkCompetitorReplacement_mem _ _ _ a hover).2
        rw [hlow] at this
        exact absurd this (by decide)
    · obtain ⟨s, _, hmem⟩ := (mem_checkVisibilityGains _ _ a).mp hgain
      have hvd := (gainAlertsFor_mem _ s a hmem).2.1
      rcases htype with h | h <;> rw [hvd] at h <;> exact absurd h (by decide)
  · intro alerts
    induction alerts with
    | nil =>
      intro _
      constructor <;> simp [criticalCount, countDrops, countThreats, countDisappearances, countGains]
    | cons a rest ih =>
      intro h
      have ha := h a (List.mem_cons_self a rest)
      obtain ⟨ih1, ih2⟩ := ih (fun b hb => h b (List.mem_cons_of_mem a hb))
      simp only [criticalCount] at ih1 ih2 ⊢
      have h6 : (a :: rest).length = rest.length + 1 := List.length_cons a rest
      cases hat : a.type <;> cases has : a.severity <;>
        try exact absurd has (ha (Or.inl hat))
      all_goals try exact absurd has (ha (Or.inr hat))
      all_goals (
        have h1 := countDrops_cons a rest
        have h2 := countThreats_cons a rest
        have h3 := countDisappearances_cons a rest
        have h4 := countGains_cons a rest
        have h5 := nonLowCount_cons a rest
        rw [hat] at h1 h2 h3
        rw [has] at h1 h4 h5
        simp at h1 h2 h3 h4 h5
        simp only [ne_eq, decide_not] at ih1 ⊢
        constructor
        · omega
        · omega)

/-- C6: for every request and every oracle outcome (failure or any list of
augmented queries), `generateQueries` returns at most 20 queries, and the
deterministic pattern queries (up to the cap) form a prefix of the result, so
they take priority over the oracle-augmented ones when capping. -/
theorem generateQueries_cap (request : GEOAnalysisRequest)
    (aiQueries : Option (List GeneratedQuery)) :
    (generateQueries request aiQueries).length ≤ 20
    ∧ ∃ t, generateQueries request aiQueries = (patternQueries request).take 20 ++ t := by
  cases aiQueries with
  | none =>
    refine ⟨?_, [], by simp [generateQueries]⟩
    simp only [generateQueries, List.length_take]
    exact min_le_left _ _
  | some ai =>
    refine ⟨?_, ai.take (20 - (patternQueries request).length), ?_⟩
    · simp only [generateQueries, List.length_take]
      exact min_le_left _ _
    · simp only [generateQueries]
      exact List.take_append_eq_append_take

/-- C7: `simulateAllSearches` returns one outcome per query; the i-th outcome
carries the i-th query's text, and whenever the oracle call for that query
fails the i-th outcome is the neutral/absent placeholder — a single failure
never aborts the batch. -/
theorem simulateAllSearches_spec (oracle : String → Option String)
    (queries : List GeneratedQuery) (brand : String) (competitors : List String) :
    (simulateAllSearches oracle queries brand competitors).length = queries.length
    ∧ ∀ (i : Nat) (h : i < queries.length),
        ∃ r, (simulateAllSearches oracle queries brand competitors)[i]? = some r
          ∧ r.query = queries[i].query
          ∧ (generateAIResponse oracle queries[i].query = none →
              r = failedSimulationResult queries[i].query) := by
  constructor
  · simp [simulateAllSearches]
  · intro i h
    have hmap : (simulateAllSearches oracle queries brand competitors)[i]? =
        some (match simulateSearch oracle queries[i] brand competitors with
          | some result => result
          | none => failedSimulationResult queries[i].query) := by
      simp only [simulateAllSearches]
      rw [List.getElem?_map, List.getElem?_eq_getElem h, Option.map_some']
    cases hsim : simulateSearch oracle queries[i] brand competitors with
    | some res =>
      obtain ⟨resp, hresp, hres⟩ := Option.map_eq_some'.mp hsim
      refine ⟨res, ?_, ?_, ?_⟩
      · rw [hmap, hsim]
      · rw [← hres]
      · intro hnone
        rw [simulateSearch, hnone] at hsim
        simp at hsim
    | none =>
      refine ⟨failedSimulationResult queries[i].query, ?_, rfl, fun _ => rfl⟩
      rw [hmap, hsim]

/-- C7 witness: with an always-failing oracle and one query, the single outcome
is the placeholder carrying the query's text. -/
theorem simulateAllSearches_witness :
    (0 : Nat) < [(⟨"best CRM", .commercial, .best⟩ : GeneratedQuery)].length
    ∧ ∃ r, (simulateAllSearches (fun _ => none)
        [(⟨"best CRM", .commercial, .best⟩ : GeneratedQuery)] "brand" [])[0]? = some r
      ∧ r.query = "best CRM"
      ∧ r = failedSimulationResult "best CRM" := by
  refine ⟨by decide, ?_⟩
  obtain ⟨r, hsome, hq, hfail⟩ :=
    (simulateAllSearches_spec (fun _ => none)
      [(⟨"best CRM", .commercial, .best⟩ : GeneratedQuery)] "brand" []).2 0 (by decide)
  exact ⟨r, hsome, hq, hfail rfl⟩

/-- `lastN` keeps at most `n` elements. -/
lemma lastN_length_le (n : Nat) (l : List α) : (lastN n l).length ≤ n := by
  simp only [lastN, List.length_drop]
  omega

/-- Trimming again after appending to an already-trimmed list gives the same
result as trimming the full append. -/
lemma lastN_append (n : Nat) (l l₂ : List α) :
    lastN n (lastN n l ++ l₂) = lastN n (l ++ l₂) := by
  unfold lastN
  rw [List.drop_append_eq_append_drop, List.drop_append_eq_append_drop, List.drop_drop]
  congr 1
  · congr 1
    simp only [List.length_append, List.length_drop]
    omega
  · congr 1
    simp only [List.length_append, List.length_drop]
    omega

/-- `lastN` is idempotent. -/
lemma lastN_idem (n : Nat) (l : List α) : lastN n (lastN n l) = lastN n l := by
  have h := lastN_append n l []
  simpa using h

/-- The retention trim of `storeAnalysisResult` keeps exactly the last 100 runs. -/
lemma trimmed_eq_lastN (l : List α) :
    (if l.length > 100 then l.drop (l.length - 100) else l) = lastN 100 l := by
  unfold lastN
  split_ifs with h
  · rfl
  · rw [Nat.sub_eq_zero_of_le (by omega), List.drop_zero]

/-- Pointwise description of one `storeAnalysisResult` call. -/
lemma storeAnalysisResult_apply (r : GEOAnalysisResult) (store : MemStore) (k : String) :
    storeAnalysisResult r store k =
      if k = normalizeBrandKey r.request.brand
      then lastN 100 (store (normalizeBrandKey r.request.brand) ++ [r])
      else store k := by
  simp only [storeAnalysisResult]
  by_cases h : k = normalizeBrandKey r.request.brand
  · rw [if_pos h, if_pos h]
    exact trimmed_eq_lastN _
  · rw [if_neg h, if_neg h]

/-- Running a batch of stores over a store whose histories are already trimmed
yields, per key, the trimmed concatenation with the arrivals for that key. -/
lemma storeAll_apply (results : List GEOAnalysisResult) :
    ∀ (store : MemStore), (∀ k', store k' = lastN 100 (store k')) → ∀ k,
      storeAll results store k =
        lastN 100 (store k ++ results.filter fun r =>
          decide (normalizeBrandKey r.request.brand = k)) := by
  induction results with
  | nil =>
    intro store hinv k
    simp only [storeAll, List.foldl_nil, List.filter_nil, List.append_nil]
    exact hinv k
  | cons r rest ih =>
    intro store hinv k
    have hinv' : ∀ k', storeAnalysisResult r store k' =
        lastN 100 (storeAnalysisResult r store k') := by
      intro k'
      rw [storeAnalysisResult_apply]
      by_cases h : k' = normalizeBrandKey r.request.brand
      · rw [if_pos h, lastN_idem]
      · rw [if_neg h]
        exact hinv k'
    have hmain := ih (storeAnalysisResult r store) hinv' k
    simp only [storeAll, List.foldl_cons] at hmain ⊢
    rw [hmain, storeAnalysisResult_apply]
    by_cases h : k = normalizeBrandKey r.request.brand
    · rw [if_pos h, List.filter_cons, if_pos (by simp [h])]
      subst h
      rw [lastN_append]
      congr 1
      simp
    · have hcond : (decide (normalizeBrandKey r.request.brand = k)) ≠ true := by
        intro e
        exact h (of_decide_eq_true e).symm
      rw [if_neg h, List.filter_cons, if_neg hcond]

/-- The latest-run lookup of a trimmed history is the last arrival. -/
lemma latest_of_lastN (F : List α) :
    (if (lastN 100 F).length = 0 then none
      else (lastN 100 F)[(lastN 100 F).length - 1]?) = F.getLast? := by
  cases F with
  | nil => simp [lastN]
  | cons a t =>
    have hpos : 0 < (lastN 100 (a :: t)).length := by
      simp only [lastN, List.length_drop, List.length_cons]
      omega
    rw [if_neg (by omega)]
    unfold lastN
    rw [List.getElem?_drop, List.getLast?_eq_getElem?]
    congr 1
    simp only [List.length_drop, List.length_cons]
    omega

/-- The previous-run lookup of a trimmed history is the second-to-last arrival. -/
lemma previous_of_lastN (F : List α) :
    (if (lastN 100 F).length < 2 then none
      else (lastN 100 F)[(lastN 100 F).length - 2]?) = F.dropLast.getLast? := by
  by_cases h2 : F.length < 2
  · rw [if_pos (by simp only [lastN, List.length_drop]; omega)]
    cases F with
    | nil => rfl
    | cons a t =>
      cases t with
      | nil => rfl
      | cons b t' =>
        simp only [List.length_cons] at h2
        omega
  · rw [if_neg (by simp only [lastN, List.length_drop]; omega)]
    rw [List.getLast?_eq_getElem?, List.dropLast_eq_take, List.getElem?_take,
      if_pos (by simp only [List.length_take]; omega)]
    unfold lastN
    rw [List.getElem?_drop]
    congr 1
    simp only [List.length_drop, List.length_take]
    omega

/-- C8: storing a sequence of runs into the empty repository keeps, per
normalized brand key, the last 100 arrivals in order (oldest evicted first);
`getLatestAnalysis` returns the last stored run for the key and
`getPreviousAnalysis` the second-to-last (`none` with fewer than two). -/
theorem runRepository_spec (results : List GEOAnalysisResult) (brand : String) :
    storeAll results emptyHistory (normalizeBrandKey brand) =
      lastN 100 (results.filter fun r =>
        decide (normalizeBrandKey r.request.brand = normalizeBrandKey brand))
    ∧ (storeAll results emptyHistory (normalizeBrandKey brand)).length ≤ 100
    ∧ getLatestAnalysis brand (storeAll results emptyHistory) =
        (results.filter fun r =>
          decide (normalizeBrandKey r.request.brand = normalizeBrandKey brand)).getLast?
    ∧ getPreviousAnalysis brand (storeAll results emptyHistory) =
        (results.filter fun r =>
          decide (normalizeBrandKey r.request.brand = normalizeBrandKey brand)).dropLast.getLast? := by
  have h0 : ∀ k', emptyHistory k' = lastN 100 (emptyHistory k') := by
    intro k'
    simp [emptyHistory, lastN]
  have hmain := storeAll_apply results emptyHistory h0 (normalizeBrandKey brand)
  simp only [emptyHistory, List.nil_append] at hmain
  refine ⟨hmain, ?_, ?_, ?_⟩
  · rw [hmain]
    exact lastN_length_le _ _
  · simp only [getLatestAnalysis]
    rw [hmain]
    exact latest_of_lastN _
  · simp only [getPreviousAnalysis]
    rw [hmain]
    exact previous_of_lastN _

/-- C9: `"WWW.Example.com/"` and `"example.com"` normalize to the same
repository key, and any two raw brand strings with equal normalizations address
the same history line (identical latest/previous lookups on every store). -/
theorem normalizeBrandKey_same_line :
    normalizeBrandKey "WWW.Example.com/" = normalizeBrandKey "example.com"
    ∧ ∀ (b₁ b₂ : String) (store : MemStore),
        normalizeBrandKey b₁ = normalizeBrandKey b₂ →
        getLatestAnalysis b₁ store = getLatestAnalysis b₂ store
        ∧ getPreviousAnalysis b₁ store = getPreviousAnalysis b₂ store := by
  constructor
  · decide
  · intro b₁ b₂ store h
    constructor
    · simp only [getLatestAnalysis, h]
    · simp only [getPreviousAnalysis, h]

/-- C9 witness: the two reference brand strings address the same history line in
the empty store. -/
theorem normalizeBrandKey_same_line_witness :
    normalizeBrandKey "WWW.Example.com/" = normalizeBrandKey "example.com"
    ∧ getLatestAnalysis "WWW.Example.com/" emptyHistory =
        getLatestAnalysis "example.com" emptyHistory
    ∧ getPreviousAnalysis "WWW.Example.com/" emptyHistory =
        getPreviousAnalysis "example.com" emptyHistory := by
  have h := normalizeBrandKey_same_line
  exact ⟨h.1, h.2 "WWW.Example.com/" "example.com" emptyHistory h.1⟩

/-- C5 counterexample: a single low-severity `competitor_overtake` alert is
counted both as critical (threat bucket) and as a gain (low-severity bucket), so
the critical count is 1 while the number of non-gain alerts is 0. -/
theorem summarizeAlerts_counterexample :
    criticalCount [alertOf .competitor_overtake .low] = 1
    ∧ countGains [alertOf .competitor_overtake .low] = 1
    ∧ (([alertOf .competitor_overtake .low].filter
        fun a => decide (a.severity ≠ Severity.low)).length) = 0 := by
  refine ⟨?_, ?_, ?_⟩ <;> rfl

/-- C5 witness: a singleton high-severity disappearance alert satisfies the
invariant, its critical count is 1 and the gain count 0. -/
theorem summarizeAlerts_critical_witness :
    (∀ a ∈ [alertOf .brand_disappeared .high],
      (a.type = AlertType.competitor_overtake ∨ a.type = AlertType.brand_disappeared) →
      a.severity ≠ Severity.low)
    ∧ criticalCount [alertOf .brand_disappeared .high] =
        ([alertOf .brand_disappeared .high].filter
          fun a => decide (a.severity ≠ Severity.low)).length
    ∧ criticalCount [alertOf .brand_disappeared .high]
        + countGains [alertOf .brand_disappeared .high] =
        [alertOf .brand_disappeared .high].length := by
  have h := summarizeAlerts_critical_classification.2 [alertOf .brand_disappeared .high]
    (by intro a ha _; simp only [List.mem_singleton] at ha; subst ha; decide)
  exact ⟨by intro a ha _; simp only [List.mem_singleton] at ha; subst ha; decide, h.1, h.2⟩

end Radius
